import Mathlib

/-!
# Verification of the ollama_deep_researcher research state machine

This file gives a shallow embedding of the core research-loop state machine of
the `local-deep-research` repository (files `src/ollama_deep_researcher/graph.py`,
`configuration.py`, `state.py`) and proves properties of it.

Modelling conventions:
* Python strings that may be `None` are `Option String`; interpolating such a
  value into an f-string renders `none` as the text "None" (`pyOptStr`).
* The LangGraph state (`SummaryState` in `state.py`) is a structure; the Python
  `set` field `seen_urls` is a duplicate-free list built with `setAdd`.
* A node returns a partial state update (`StateUpdate`).  Fields annotated with
  `operator.add` in `state.py` (`web_research_results`, `sources_gathered`,
  `query_history`) are list-appended by the LangGraph reducer; all other fields
  overwrite.  `applyUpdate` implements exactly this reducer semantics.
* External collaborators (LLM calls, search providers, the validation judge)
  are oracles supplied in a `StepIn` record, one per executed graph step.
* Python floats (relevance scores) are modelled as rationals; the float
  literals appearing in the claims (0.1, 0.5, ...) are order-faithful.
* `utils.py` and `lmstudio.py` are absent from the sources; functions from
  them are modelled from the spec and marked as such in their doc comments.
-/

namespace LDR

/-- Python f-string rendering of a string-or-None value: `None` prints as "None". -/
def pyOptStr : Option String → String
  | none => "None"
  | some s => s

/-- Python `set.add` on a duplicate-free list model of a set. -/
def setAdd (l : List String) (u : String) : List String :=
  if u ∈ l then l else l ++ [u]

/-- Search for `needle` in `hay` starting at offset `idx`, returning the index
of the first occurrence (used to model Python `str.find`). -/
def findSubAux (needle : List Char) : List Char → Nat → Option Nat
  | [], idx => if needle.isPrefixOf ([] : List Char) then some idx else none
  | c :: rest, idx =>
    if needle.isPrefixOf (c :: rest) then some idx
    else findSubAux needle rest (idx + 1)

/-- Python `hay.find(needle, start)`: absolute index of the first occurrence of
`needle` at or after `start`, `none` for Python -1. -/
def strFind (hay needle : String) (start : Nat) : Option Nat :=
  (findSubAux needle.data (hay.data.drop start) 0).map (fun i => i + start)

/-- Python `needle in hay` substring test. -/
def strContainsSub (hay needle : String) : Bool :=
  (strFind hay needle 0).isSome

/-- Python character-based slicing helper: the first `n` characters. -/
def strTakeChars (s : String) (n : Nat) : String :=
  String.mk (s.data.take n)

/-- Python slice `s[i:]`. -/
def strDropChars (s : String) (n : Nat) : String :=
  String.mk (s.data.drop n)

/-- Python slice `s[i:j]`. -/
def strSlice (s : String) (i j : Nat) : String :=
  String.mk ((s.data.drop i).take (j - i))

/-- One normalized search result (the uniform schema of the search adapters). -/
structure SearchResult where
  title : String
  url : String
  content : String
  raw_content : Option String := none
deriving DecidableEq, Repr

/-- One provider's response: a dict with a "results" list. -/
structure SearchResponse where
  results : List SearchResult
deriving DecidableEq, Repr

/-- Outcome of calling one search provider: a response, or a raised exception. -/
inductive SearchOutcome
  | ok (resp : SearchResponse)
  | err
deriving Repr

/-- A structured tool invocation emitted by the model.  `args` is `none` when
the invocation dict has no "args" key (a `KeyError` case in the code). -/
structure ToolCall where
  args : Option (List (String × String)) := none
deriving DecidableEq, Repr

/-- A model response: its tool invocations and, for JSON mode, the result of
`json.loads` on its content restricted to string fields (`none` = parse error). -/
structure ModelResponse where
  tool_calls : List ToolCall := []
  jsonContent : Option (List (String × String)) := none
deriving DecidableEq, Repr

/-- Python `dict.get`: the value of the first binding of `k`, if any. -/
def dictGet (m : List (String × String)) (k : String) : Option String :=
  (m.find? (fun p => p.1 == k)).map (fun p => p.2)

/-- One judged source as parsed from the validation model's JSON: the code reads
`relevance_score` (default 0) and `url` (default "") from each entry. -/
structure SourceEval where
  url : String := ""
  relevance_score : ℚ := 0
deriving DecidableEq, Repr

/-- The parsed validation JSON; the code only ever reads its "sources" list. -/
structure ValidationData where
  sources : List SourceEval := []
deriving DecidableEq, Repr

/-- Outcome of the judgment call in `validate_sources`: a parsed result, or any
exception raised by the model call / JSON parsing (caught fail-open). -/
inductive JudgeResult
  | ok (data : ValidationData)
  | err
deriving DecidableEq, Repr

/-- Configuration fields used by the research graph (`configuration.py`), with
the pydantic defaults.  `search_apis` models the `search_apis` entry of the
runnable config's `configurable` dict, which `web_research` reads directly. -/
structure Configuration where
  max_web_research_loops : Int := 3
  local_llm : String := "llama3.2"
  llm_provider : String := "ollama"
  search_api : String := "tavily"
  fetch_full_page : Bool := false
  strip_thinking_tokens : Bool := true
  use_tool_calling : Bool := false
  min_source_relevance_score : ℚ := mkRat 1 2
  require_valid_sources : Bool := true
  max_validation_retries : Int := 1
  search_apis : Option (List String) := none
deriving DecidableEq, Repr

/-- The LangGraph state, `SummaryState` in `state.py`. -/
structure SummaryState where
  research_topic : Option String := none
  search_query : Option String := none
  web_research_results : List String := []
  sources_gathered : List String := []
  research_loop_count : Int := 0
  running_summary : Option String := none
  validated_sources : Bool := false
  validation_retry_needed : Bool := false
  validation_retries : Int := 0
  validation_failed : Bool := false
  seen_urls : List String := []
  query_history : List (Option String) := []
deriving DecidableEq, Repr

/-- A partial state update returned by a node.  For scalar fields the outer
`Option` is key presence in the returned dict; for `search_query` and
`running_summary` the inner `Option` is Python string-or-None.  The three list
fields carry the entries to append via the `operator.add` reducer. -/
structure StateUpdate where
  search_query : Option (Option String) := none
  research_loop_count : Option Int := none
  running_summary : Option (Option String) := none
  validated_sources : Option Bool := none
  validation_retry_needed : Option Bool := none
  validation_retries : Option Int := none
  validation_failed : Option Bool := none
  sources_gathered : List String := []
  web_research_results : List String := []
  query_history : List (Option String) := []
deriving DecidableEq, Repr

/-- The LangGraph reducer: `operator.add` fields append, the rest overwrite
when present in the update. -/
def applyUpdate (st : SummaryState) (u : StateUpdate) : SummaryState :=
  { st with
    search_query := u.search_query.getD st.search_query
    research_loop_count := u.research_loop_count.getD st.research_loop_count
    running_summary := u.running_summary.getD st.running_summary
    validated_sources := u.validated_sources.getD st.validated_sources
    validation_retry_needed := u.validation_retry_needed.getD st.validation_retry_needed
    validation_retries := u.validation_retries.getD st.validation_retries
    validation_failed := u.validation_failed.getD st.validation_failed
    sources_gathered := st.sources_gathered ++ u.sources_gathered
    web_research_results := st.web_research_results ++ u.web_research_results
    query_history := st.query_history ++ u.query_history }

/-- The nodes of the research graph, plus the END terminal. -/
inductive Node
  | generate_query
  | web_research
  | validate_sources
  | summarize_sources
  | reflect_on_summary
  | finalize_summary
  | terminal
deriving DecidableEq, Repr

/-- Oracle data consumed by one executed graph step: the model response for the
query/reflection extractor, the per-provider search outcomes, the judgment
result, and the summarization model's content. -/
structure StepIn where
  queryResponse : ModelResponse := {}
  search : String → SearchOutcome := fun _ => SearchOutcome.err
  judge : JudgeResult := JudgeResult.err
  summaryContent : String := ""

/-- Counters instrumenting a run: completed `web_research` steps, and
`validate_sources` → `web_research` (validation retry) transitions taken. -/
structure RunStats where
  webResearchSteps : Nat := 0
  validationRetryEdges : Nat := 0
deriving DecidableEq, Repr

/-- Token-budget constant from `graph.py`. -/
def MAX_TOKENS_PER_SOURCE : Nat := 1000

/-- Token-to-character approximation constant from `graph.py`. -/
def CHARS_PER_TOKEN : Nat := 4

/-- The search backends dispatched by `web_research`. -/
def supportedAPIs : List String :=
  ["tavily", "perplexity", "duckduckgo", "searxng", "arxiv"]

/-- Modelled from the spec: `strip_thinking_tokens` lives in
`ollama_deep_researcher/utils.py`, which is not present under `src/`.  Per the
spec it strips a delimited thinking section from the text, best effort. -/
def strip_thinking_tokens (s : String) : String :=
  match strFind s "<think>" 0, strFind s "</think>" 0 with
  | some i, some j =>
    if i ≤ j then strTakeChars s i ++ strDropChars s (j + 8) else s
  | _, _ => s

/-- Modelled from the spec: `format_sources` lives in `utils.py`, absent from
`src/`.  Per spec section 4.2 it emits one line per result, shaped
"* title : url". -/
def format_sources (resp : SearchResponse) : String :=
  String.intercalate "\n"
    (resp.results.map (fun r => "* " ++ r.title ++ " : " ++ r.url))

/-- Modelled from the spec: `deduplicate_and_format_sources` lives in
`utils.py`, absent from `src/`.  Per spec section 4.2 it flattens the result
sets in order, skips any result whose URL is in `seen_urls` or was already seen
earlier in the same pass, and formats each retained result as a block with
title, URL and a content snippet truncated to
`max_tokens_per_source * CHARS_PER_TOKEN` characters, appending the truncated
full page when `fetch_full_page` is set and raw content exists.  It does not
mutate `seen_urls`. -/
def deduplicate_and_format_sources (sets : List SearchResponse)
    (max_tokens_per_source : Nat) (fetch_full_page : Bool)
    (seen_urls : List String) : String :=
  let flat := (sets.map (fun r => r.results)).flatten
  let charLimit := max_tokens_per_source * CHARS_PER_TOKEN
  let blocks := (flat.foldl
    (fun (acc : List String × List String) r =>
      if r.url ∈ acc.2 then acc
      else
        let block := "Source: " ++ r.title ++ "\nURL: " ++ r.url ++
          "\nContent: " ++ strTakeChars r.content charLimit ++
          (match fetch_full_page, r.raw_content with
           | true, some raw => "\nFull page: " ++ strTakeChars raw charLimit
           | _, _ => "")
        (acc.1 ++ [block], acc.2 ++ [r.url]))
    ([], seen_urls)).1
  String.intercalate "\n\n" blocks

/-- The structured-output query extractor
(`generate_search_query_with_structured_output`, `graph.py` lines 45-97).  The
LLM invocation is replaced by its response `resp`; the messages, tool class and
model override do not affect the extraction logic.  The returned value is the
"search_query" entry of the returned dict (`none` models Python `None`).
Tool-calling mode: no tool calls gives the fallback; a first invocation whose
dict lacks "args" raises `KeyError`, caught to the fallback; otherwise
`args.get(field)` is returned verbatim, `None` included.  JSON mode: parse
failure or a missing/empty field gives the fallback. -/
def generate_search_query_with_structured_output (cfg : Configuration)
    (resp : ModelResponse) (fallback_query tool_query_field json_query_field :
    String) : Option String :=
  if cfg.use_tool_calling then
    match resp.tool_calls with
    | [] => some fallback_query
    | tc :: _ =>
      match tc.args with
      | none => some fallback_query
      | some args => dictGet args tool_query_field
  else
    match resp.jsonContent with
    | none => some fallback_query
    | some parsed =>
      match dictGet parsed json_query_field with
      | none => some fallback_query
      | some q => if q = "" then some fallback_query else some q

/-- How the `local_llm` entry reaches `Configuration.from_runnable_config`:
absent from the `configurable` dict, present mapped to Python `None`, or
present with a string. -/
inductive ConfEntry
  | absent
  | pynone
  | pystr (s : String)
deriving DecidableEq, Repr

/-- The error message raised for the placeholder sentinel
(`configuration.py` line 114; the quotes around the sentinel are elided). -/
def placeholder_error_message : String :=
  "LOCAL_LLM is set to placeholder value your_model_name. Please configure a real model name."

/-- The raw-then-filtered `local_llm` value computed by
`Configuration.from_runnable_config` (`configuration.py` lines 99-110):
`configurable.get(name, os.environ.get(NAME))`, then dropping `None` and
empty-string values. -/
def filtered_local_llm (entry : ConfEntry) (env : Option String) :
    Option String :=
  let raw : Option String :=
    match entry with
    | ConfEntry.absent => env
    | ConfEntry.pynone => none
    | ConfEntry.pystr s => some s
  match raw with
  | none => none
  | some s => if s = "" then none else some s

/-- The `local_llm` resolution of `Configuration.from_runnable_config`
(`configuration.py` lines 94-116): the filtered value is checked against the
placeholder sentinel before the model is constructed; a missing value falls
back to the pydantic default "llama3.2". -/
def from_runnable_config_local_llm (entry : ConfEntry) (env : Option String) :
    Except String String :=
  match filtered_local_llm entry env with
  | some s =>
    if s = "your_model_name" then Except.error placeholder_error_message
    else Except.ok s
  | none => Except.ok "llama3.2"

/-- The provider loop of the multi-source branch of `web_research` (`graph.py`
lines 263-331): unsupported APIs are skipped, a provider exception is caught
and skipped, and a response is collected only when its result list is
non-empty. -/
def collectResponses (search : String → SearchOutcome) (apis : List String) :
    List SearchResponse :=
  apis.foldr
    (fun api acc =>
      if api ∈ supportedAPIs then
        match search api with
        | SearchOutcome.ok r => if r.results.isEmpty then acc else r :: acc
        | SearchOutcome.err => acc
      else acc)
    []

/-- The multi-source branch of `web_research` (`graph.py` lines 255-368).
Returns the state with its in-place `seen_urls` mutation applied, and the
returned update dict. -/
def webResearchMulti (cfg : Configuration) (inp : StepIn) (st : SummaryState)
    (apis : List String) : SummaryState × StateUpdate :=
  if (collectResponses inp.search apis).isEmpty then
    (st,
     { sources_gathered := [""]
       research_loop_count := some (st.research_loop_count + 1)
       web_research_results := ["No search results found."] })
  else
    let collected := collectResponses inp.search apis
    let search_str := deduplicate_and_format_sources collected
      MAX_TOKENS_PER_SOURCE cfg.fetch_full_page st.seen_urls
    let urls := (collected.map (fun r => r.results.map (fun x => x.url))).flatten
    let formatted_sources :=
      String.intercalate "\n" (collected.map format_sources)
    ({ st with seen_urls := urls.foldl setAdd st.seen_urls },
     { sources_gathered := [formatted_sources]
       research_loop_count := some (st.research_loop_count + 1)
       web_research_results := [search_str] })

/-- The single-provider branch of `web_research` (`graph.py` lines 369-452).
An unsupported selector raises; a provider exception propagates. -/
def webResearchSingle (cfg : Configuration) (inp : StepIn) (st : SummaryState) :
    Except String (SummaryState × StateUpdate) :=
  if cfg.search_api ∈ supportedAPIs then
    match inp.search cfg.search_api with
    | SearchOutcome.err =>
      Except.error ("search provider failure: " ++ cfg.search_api)
    | SearchOutcome.ok resp =>
      let search_str := deduplicate_and_format_sources [resp]
        MAX_TOKENS_PER_SOURCE cfg.fetch_full_page st.seen_urls
      let urls := resp.results.map (fun x => x.url)
      Except.ok
        ({ st with seen_urls := urls.foldl setAdd st.seen_urls },
         { sources_gathered := [format_sources resp]
           research_loop_count := some (st.research_loop_count + 1)
           web_research_results := [search_str] })
  else Except.error ("Unsupported search API: " ++ cfg.search_api)

/-- The `web_research` node (`graph.py` lines 225-452).  The multi-source
branch runs when the configurable dict carries a non-empty `search_apis` list;
otherwise the single-provider branch runs. -/
def web_research (cfg : Configuration) (inp : StepIn) (st : SummaryState) :
    Except String (SummaryState × StateUpdate) :=
  match cfg.search_apis with
  | some (a :: rest) => Except.ok (webResearchMulti cfg inp st (a :: rest))
  | _ => webResearchSingle cfg inp st

/-- The URLs observed by a `web_research` round: every URL of every collected
response (multi-source branch) or of the single provider's response. -/
def webObservedUrls (cfg : Configuration) (inp : StepIn) : List String :=
  match cfg.search_apis with
  | some (a :: rest) =>
    ((collectResponses inp.search (a :: rest)).map
      (fun r => r.results.map (fun x => x.url))).flatten
  | _ =>
    if cfg.search_api ∈ supportedAPIs then
      match inp.search cfg.search_api with
      | SearchOutcome.ok resp => resp.results.map (fun x => x.url)
      | SearchOutcome.err => []
    else []

/-- The filtered-results pass of `validate_sources` (`graph.py` lines 603-617):
for each retained source whose URL occurs in the round's text, extract its
segment up to the next source marker. -/
def buildFilteredResults (valid_sources : List SourceEval) (text : String) :
    List String :=
  valid_sources.foldl
    (fun acc s =>
      if s.url ≠ "" && strContainsSub text s.url then
        match strFind text s.url 0 with
        | some start_idx =>
          let seg :=
            match strFind text "\n\nSource:" (start_idx + 1) with
            | none => strDropChars text start_idx
            | some j => strSlice text start_idx j
          acc ++ [seg]
        | none => acc
      else acc)
    []

/-- The `validate_sources` node (`graph.py` lines 455-631).  `judge` is the
outcome of the judgment LLM call followed by thinking-token stripping and
`json.loads`; any exception there is the fail-open `JudgeResult.err`.  The
empty-results early return precedes the judgment call, so the result on that
path is the same for every judge. -/
def validate_sources (cfg : Configuration) (judge : JudgeResult)
    (st : SummaryState) : StateUpdate :=
  if st.web_research_results.isEmpty then
    { validated_sources := some false, validation_retry_needed := some false }
  else
    let most_recent_web_research := st.web_research_results.getLastD ""
    let current_retries := st.validation_retries
    match judge with
    | JudgeResult.err => { validated_sources := some true }
    | JudgeResult.ok data =>
      let valid_sources := data.sources.filter
        (fun s => decide (cfg.min_source_relevance_score ≤ s.relevance_score))
      let has_valid_sources : Bool := !valid_sources.isEmpty
      if !has_valid_sources && cfg.require_valid_sources then
        if cfg.max_validation_retries ≤ current_retries then
          { validated_sources := some false
            validation_failed := some false
            validation_retry_needed := some false
            web_research_results := st.web_research_results }
        else
          { validated_sources := some false
            validation_retry_needed := some true
            validation_retries := some (current_retries + 1)
            search_query :=
              some (some (pyOptStr st.search_query ++
                " academic research scholarly")) }
      else if has_valid_sources &&
          decide (valid_sources.length < data.sources.length) then
        let filtered_results :=
          buildFilteredResults valid_sources most_recent_web_research
        if !filtered_results.isEmpty then
          let filtered_web_research :=
            String.intercalate "\n\n" filtered_results
          { validated_sources := some true
            web_research_results :=
              if filtered_web_research ≠ "" then [filtered_web_research]
              else st.web_research_results }
        else { validated_sources := some has_valid_sources }
      else { validated_sources := some has_valid_sources }

/-- The `finalize_summary` node (`graph.py` lines 793-832).  It deduplicates
the accumulated citation lines, rewrites "Title : URL" lines as markdown links,
assembles the final report, assigns it to `state.running_summary` in place, and
returns the same value as its update.  The first component is the state object
after the in-place mutation. -/
def finalize_summary (st : SummaryState) : SummaryState × StateUpdate :=
  let unique_sources := (st.sources_gathered.foldl
    (fun (acc : List String × List String) source =>
      (source.splitOn "\n").foldl
        (fun (acc : List String × List String) line =>
          if line.trim ≠ "" && line ∉ acc.2 then
            let line' :=
              if strContainsSub line " : " then
                match line.splitOn " : " with
                | title :: rest =>
                  let title' := (title.dropWhile
                    (fun c => c = '*' || c = ' ')).trim
                  "* [" ++ title' ++ "](" ++
                    String.intercalate " : " rest ++ ")"
                | [] => line
              else line
            (acc.1 ++ [line'], acc.2 ++ [line])
          else acc)
        acc)
    ([], [])).1
  let all_sources := String.intercalate "\n" unique_sources
  let final := "## Summary\n" ++ pyOptStr st.running_summary ++
    "\n\n### Sources:\n" ++ all_sources
  ({ st with running_summary := some final },
   { running_summary := some (some final) })

/-- The `route_research` conditional edge (`graph.py` lines 835-855). -/
def route_research (cfg : Configuration) (st : SummaryState) : Node :=
  if st.research_loop_count ≤ cfg.max_web_research_loops then
    Node.web_research
  else Node.finalize_summary

/-- The `route_validation` conditional edge (`graph.py` lines 858-885). -/
def route_validation (cfg : Configuration) (st : SummaryState) : Node :=
  if st.validation_retry_needed = true ∧
      st.validation_retries < cfg.max_validation_retries then
    Node.web_research
  else Node.summarize_sources

/-- One step of the compiled graph: runs the node's function, applies its
update through the reducer (`applyUpdate`), and follows the (conditional) edge
out of the node.  LangGraph evaluates conditional edges on the state with the
node's update already applied. -/
def step (cfg : Configuration) (inp : StepIn) (n : Node) (st : SummaryState) :
    Except String (Node × SummaryState) :=
  match n with
  | Node.generate_query =>
    let q := generate_search_query_with_structured_output cfg
      inp.queryResponse ("Tell me more about " ++ pyOptStr st.research_topic)
      "query" "query"
    Except.ok (Node.web_research,
      applyUpdate st { search_query := some q, query_history := [q] })
  | Node.web_research =>
    match web_research cfg inp st with
    | Except.error e => Except.error e
    | Except.ok (st₁, u) =>
      Except.ok (Node.validate_sources, applyUpdate st₁ u)
  | Node.validate_sources =>
    let st' := applyUpdate st (validate_sources cfg inp.judge st)
    Except.ok (route_validation cfg st', st')
  | Node.summarize_sources =>
    if st.web_research_results.isEmpty then
      Except.error "IndexError: web_research_results is empty"
    else
      let content :=
        if cfg.strip_thinking_tokens then strip_thinking_tokens
          inp.summaryContent
        else inp.summaryContent
      Except.ok (Node.reflect_on_summary,
        applyUpdate st { running_summary := some (some content) })
  | Node.reflect_on_summary =>
    let q := generate_search_query_with_structured_output cfg
      inp.queryResponse ("Tell me more about " ++ pyOptStr st.research_topic)
      "follow_up_query" "follow_up_query"
    let st' := applyUpdate st { search_query := some q }
    Except.ok (route_research cfg st', st')
  | Node.finalize_summary =>
    let p := finalize_summary st
    Except.ok (Node.terminal, applyUpdate p.1 p.2)
  | Node.terminal => Except.ok (Node.terminal, st)

/-- Execute the graph on a list of per-step oracle inputs, instrumenting the
completed `web_research` steps and the taken validation-retry edges. -/
def run (cfg : Configuration) :
    List StepIn → Node → SummaryState → RunStats →
    Except String (Node × SummaryState × RunStats)
  | [], n, st, s => Except.ok (n, st, s)
  | inp :: rest, n, st, s =>
    match step cfg inp n st with
    | Except.error e => Except.error e
    | Except.ok (n', st') =>
      run cfg rest n' st'
        { webResearchSteps :=
            s.webResearchSteps + (if n = Node.web_research then 1 else 0)
          validationRetryEdges :=
            s.validationRetryEdges +
              (if n = Node.validate_sources ∧ n' = Node.web_research then 1
               else 0) }

/-- Projection of a run result to its final node and counters. -/
def runOutcome (r : Except String (Node × SummaryState × RunStats)) :
    Option (Node × Nat × Nat) :=
  match r with
  | Except.ok out => some (out.1, out.2.2.webResearchSteps,
      out.2.2.validationRetryEdges)
  | Except.error _ => none

/-- Boolean success test for a run result. -/
def isOkB {ε α : Type} : Except ε α → Bool
  | Except.ok _ => true
  | Except.error _ => false

/-! ## Concrete scenarios used to instantiate the theorems -/

/-- A model response carrying one tool call whose `args` dict binds `field` to
`val`. -/
def mkToolResp (field val : String) : ModelResponse :=
  { tool_calls := [{ args := some [(field, val)] }] }

/-- A search oracle answering every provider with one fixed result. -/
def okSearch (t u c : String) : String → SearchOutcome :=
  fun _ => SearchOutcome.ok { results := [{ title := t, url := u, content := c }] }

/-- A judge scoring a single source at 0.1 (below the 0.5 threshold). -/
def failJudge (u : String) : JudgeResult :=
  JudgeResult.ok { sources := [{ url := u, relevance_score := mkRat 1 10 }] }

/-- A judge scoring a single source at 0.9 (above the 0.5 threshold). -/
def passJudge (u : String) : JudgeResult :=
  JudgeResult.ok { sources := [{ url := u, relevance_score := mkRat 9 10 }] }

/-- Configuration for the one-loop happy-path run: budget 0 so the first
reflection finalizes. -/
def c1_cfg : Configuration :=
  { max_web_research_loops := 0, use_tool_calling := true,
    search_api := "duckduckgo", strip_thinking_tokens := false }

/-- Initial state of the happy-path run. -/
def c1_st : SummaryState := { research_topic := some "t" }

/-- Oracle inputs of the happy-path run: generate, search, validate (pass),
summarize, reflect, finalize. -/
def c1_trace : List StepIn :=
  [ { queryResponse := mkToolResp "query" "q1" },
    { search := okSearch "T1" "u1" "c1" },
    { judge := passJudge "u1" },
    { summaryContent := "s1" },
    { queryResponse := mkToolResp "follow_up_query" "q2" },
    {} ]

/-- The happy-path run result. -/
def c1_res : Except String (Node × SummaryState × RunStats) :=
  run c1_cfg c1_trace Node.generate_query c1_st {}

/-- Configuration of spec Scenario C: judge scores every source 0.1 with the
0.5 threshold and `max_validation_retries = 1`. -/
def c2_cfg : Configuration :=
  { max_web_research_loops := 1, max_validation_retries := 1,
    use_tool_calling := true, search_api := "duckduckgo",
    strip_thinking_tokens := false }

/-- Oracle inputs of the Scenario C run: every judge call rejects every
source.  The trace covers the whole run through finalization. -/
def c2_trace : List StepIn :=
  [ { queryResponse := mkToolResp "query" "q1" },
    { search := okSearch "T1" "u1" "c1" },
    { judge := failJudge "u1" },
    { summaryContent := "s1" },
    { queryResponse := mkToolResp "follow_up_query" "q2" },
    { search := okSearch "T2" "u2" "c2" },
    { judge := failJudge "u2" },
    { summaryContent := "s2" },
    { queryResponse := mkToolResp "follow_up_query" "q3" },
    {} ]

/-- The Scenario C run result. -/
def c2_res : Except String (Node × SummaryState × RunStats) :=
  run c2_cfg c2_trace Node.generate_query { research_topic := some "t" } {}

/-- Configuration with a retry budget of 2, under which a stale retry flag can
misroute a passed validation. -/
def c3_cfg : Configuration := { max_validation_retries := 2 }

/-- A judge output accepting the round's only source. -/
def c3_judge : JudgeResult := passJudge "u1"

/-- A state as produced by a round that follows an earlier validation retry:
the retry left `validation_retry_needed` set and `validation_retries = 1`, and
the new round's results are in place. -/
def c3_st : SummaryState :=
  { web_research_results := ["Source: T1\nURL: u1\nContent: c1"],
    sources_gathered := ["* T1 : u1"],
    search_query := some "q",
    validation_retry_needed := true,
    validation_retries := 1 }

/-- A state like `c3_st` but with no stale retry flag. -/
def c3w_st : SummaryState :=
  { web_research_results := ["Source: T1\nURL: u1\nContent: c1"],
    sources_gathered := ["* T1 : u1"],
    search_query := some "q",
    validation_retries := 1 }

/-- Configuration with validation disabled (`require_valid_sources = false`). -/
def c4_cfg : Configuration :=
  { max_web_research_loops := 1, max_validation_retries := 1,
    require_valid_sources := false, use_tool_calling := true,
    search_api := "duckduckgo", strip_thinking_tokens := false }

/-- Oracle inputs of the `require_valid_sources = false` run: every judge call
rejects every source, yet no retry may occur. -/
def c4_trace : List StepIn :=
  [ { queryResponse := mkToolResp "query" "q1" },
    { search := okSearch "T1" "u1" "c1" },
    { judge := failJudge "u1" },
    { summaryContent := "s1" },
    { queryResponse := mkToolResp "follow_up_query" "q2" },
    { search := okSearch "T2" "u2" "c2" },
    { judge := failJudge "u2" },
    { summaryContent := "s2" },
    { queryResponse := mkToolResp "follow_up_query" "q3" },
    {} ]

/-- Initial state of the `require_valid_sources = false` run. -/
def c4_st : SummaryState := { research_topic := some "t" }

/-- The `require_valid_sources = false` run result. -/
def c4_res : Except String (Node × SummaryState × RunStats) :=
  run c4_cfg c4_trace Node.generate_query c4_st {}

/-- Tool-calling configuration for the extractor evaluation. -/
def c5_cfg : Configuration := { use_tool_calling := true }

/-- A model response whose only tool call carries an args dict that lacks the
requested "query" field. -/
def c5_resp : ModelResponse :=
  { tool_calls := [{ args := some [("rationale", "r")] }] }

/-- A model response with no tool call at all. -/
def c5_noToolResp : ModelResponse := { tool_calls := [] }

/-- Configuration of the exhausted-retry evaluation: threshold 0.5, retry
budget 1 already used up. -/
def c7_cfg : Configuration := { max_validation_retries := 1 }

/-- A judge output rejecting the round's only source (score 0.1). -/
def c7_judge : JudgeResult := failJudge "u1"

/-- A state whose validation retry budget is exhausted, holding one research
round's results. -/
def c7_st : SummaryState :=
  { web_research_results := ["round one results"],
    sources_gathered := ["* T1 : u1"],
    validation_retries := 1 }

/-- A state with a running summary and one citation block, used to evaluate
`finalize_summary`. -/
def c8_st : SummaryState :=
  { research_topic := some "t1",
    running_summary := some "S",
    sources_gathered := ["* A : u"] }

/-- A state agreeing with `c8_st` on `sources_gathered` and `running_summary`
but differing elsewhere. -/
def c8_st' : SummaryState :=
  { research_topic := some "t2",
    running_summary := some "S",
    sources_gathered := ["* A : u"],
    research_loop_count := 7 }

/-- Single-provider configuration for the seen-urls evaluation. -/
def c9_cfg : Configuration := { search_api := "duckduckgo" }

/-- Oracle input whose search returns one result with URL "u1". -/
def c9_inp : StepIn := { search := okSearch "T1" "u1" "c1" }

/-- A state that has already seen URL "u0". -/
def c9_st : SummaryState := { seen_urls := ["u0"] }

/-- A mid-run state as reached just before the first validation of a round:
one round of results, no retries so far. -/
def c2_mid : SummaryState :=
  { web_research_results := ["r"], search_query := some "q1" }

/-- Projection of a run result to the final state's loop counter. -/
def runLoopCount (r : Except String (Node × SummaryState × RunStats)) :
    Option Int :=
  match r with
  | Except.ok out => some out.2.1.research_loop_count
  | Except.error _ => none

/-- Projection of a run result to its completed web-research step count. -/
def runWrsInt (r : Except String (Node × SummaryState × RunStats)) :
    Option Int :=
  match r with
  | Except.ok out => some (out.2.2.webResearchSteps : Int)
  | Except.error _ => none

/-- Projection of a run result to its validation-retry edge count. -/
def runRetryEdges (r : Except String (Node × SummaryState × RunStats)) :
    Option Nat :=
  match r with
  | Except.ok out => some out.2.2.validationRetryEdges
  | Except.error _ => none

/-! ## Structural lemmas about the reducer, the set model and the nodes -/

@[simp]
lemma applyUpdate_seen_urls (st : SummaryState) (u : StateUpdate) :
    (applyUpdate st u).seen_urls = st.seen_urls := rfl

@[simp]
lemma applyUpdate_research_loop_count (st : SummaryState) (u : StateUpdate) :
    (applyUpdate st u).research_loop_count =
      u.research_loop_count.getD st.research_loop_count := rfl

@[simp]
lemma applyUpdate_validation_retry_needed (st : SummaryState) (u : StateUpdate) :
    (applyUpdate st u).validation_retry_needed =
      u.validation_retry_needed.getD st.validation_retry_needed := rfl

@[simp]
lemma applyUpdate_web_research_results (st : SummaryState) (u : StateUpdate) :
    (applyUpdate st u).web_research_results =
      st.web_research_results ++ u.web_research_results := rfl

lemma mem_setAdd_of_mem {l : List String} {x : String} (y : String)
    (h : x ∈ l) : x ∈ setAdd l y := by
  unfold setAdd
  split
  · exact h
  · exact List.mem_append_left _ h

lemma mem_setAdd_self (l : List String) (y : String) : y ∈ setAdd l y := by
  unfold setAdd
  split
  · assumption
  · exact List.mem_append_right _ (List.mem_singleton.mpr rfl)

lemma length_le_setAdd (l : List String) (y : String) :
    l.length ≤ (setAdd l y).length := by
  unfold setAdd
  split
  · exact le_refl _
  · simp

lemma subset_foldl_setAdd (us : List String) :
    ∀ l : List String, l ⊆ List.foldl setAdd l us := by
  induction us with
  | nil => intro l x hx; simpa using hx
  | cons u us ih =>
    intro l x hx
    rw [List.foldl_cons]
    exact ih (setAdd l u) (mem_setAdd_of_mem u hx)

lemma length_le_foldl_setAdd (us : List String) :
    ∀ l : List String, l.length ≤ (List.foldl setAdd l us).length := by
  induction us with
  | nil => intro l; simp
  | cons u us ih =>
    intro l
    rw [List.foldl_cons]
    exact le_trans (length_le_setAdd l u) (ih (setAdd l u))

lemma mem_foldl_setAdd {x : String} (us : List String) :
    ∀ l : List String, x ∈ us → x ∈ List.foldl setAdd l us := by
  induction us with
  | nil => intro l h; cases h
  | cons u us ih =>
    intro l h
    rw [List.foldl_cons]
    rcases List.mem_cons.mp h with h1 | h2
    · subst h1
      exact subset_foldl_setAdd us (setAdd l x) (mem_setAdd_self l x)
    · exact ih (setAdd l u) h2

@[simp]
lemma finalize_summary_fst_research_loop_count (st : SummaryState) :
    (finalize_summary st).1.research_loop_count = st.research_loop_count := rfl

@[simp]
lemma finalize_summary_fst_seen_urls (st : SummaryState) :
    (finalize_summary st).1.seen_urls = st.seen_urls := rfl

@[simp]
lemma finalize_summary_fst_validation_retry_needed (st : SummaryState) :
    (finalize_summary st).1.validation_retry_needed =
      st.validation_retry_needed := rfl

@[simp]
lemma finalize_summary_snd_research_loop_count (st : SummaryState) :
    (finalize_summary st).2.research_loop_count = none := rfl

@[simp]
lemma finalize_summary_snd_validation_retry_needed (st : SummaryState) :
    (finalize_summary st).2.validation_retry_needed = none := rfl

lemma validate_sources_rlc_none (cfg : Configuration) (judge : JudgeResult)
    (st : SummaryState) :
    (validate_sources cfg judge st).research_loop_count = none := by
  unfold validate_sources
  split
  · rfl
  · cases judge with
    | err => rfl
    | ok data =>
      dsimp only
      split
      · split <;> rfl
      · split
        · split <;> rfl
        · rfl

lemma validate_sources_no_retry_of_not_required (cfg : Configuration)
    (judge : JudgeResult) (st : SummaryState)
    (h : cfg.require_valid_sources = false) :
    (validate_sources cfg judge st).validation_retry_needed ≠ some true := by
  unfold validate_sources
  split
  · simp
  · cases judge with
    | err => simp
    | ok data =>
      dsimp only
      rw [h]
      simp only [Bool.and_false, Bool.false_eq_true, if_false]
      split
      · split <;> simp
      · simp

lemma route_validation_of_not_retry (cfg : Configuration) (st : SummaryState)
    (h : st.validation_retry_needed = false) :
    route_validation cfg st = Node.summarize_sources := by
  simp [route_validation, h]

lemma webResearchMulti_spec (cfg : Configuration) (inp : StepIn)
    (st : SummaryState) (apis : List String) :
    (webResearchMulti cfg inp st apis).2.research_loop_count =
      some (st.research_loop_count + 1) ∧
    (webResearchMulti cfg inp st apis).2.validation_retry_needed = none ∧
    (webResearchMulti cfg inp st apis).1.validation_retry_needed =
      st.validation_retry_needed ∧
    (webResearchMulti cfg inp st apis).1.research_loop_count =
      st.research_loop_count ∧
    st.seen_urls ⊆ (webResearchMulti cfg inp st apis).1.seen_urls ∧
    st.seen_urls.length ≤ (webResearchMulti cfg inp st apis).1.seen_urls.length
    := by
  unfold webResearchMulti
  split
  · exact ⟨rfl, rfl, rfl, rfl, fun x hx => hx, le_refl _⟩
  · exact ⟨rfl, rfl, rfl, rfl, subset_foldl_setAdd _ _,
      length_le_foldl_setAdd _ _⟩

lemma webResearchSingle_spec {cfg : Configuration} {inp : StepIn}
    {st st₁ : SummaryState} {u : StateUpdate}
    (h : webResearchSingle cfg inp st = Except.ok (st₁, u)) :
    u.research_loop_count = some (st.research_loop_count + 1) ∧
    u.validation_retry_needed = none ∧
    st₁.validation_retry_needed = st.validation_retry_needed ∧
    st₁.research_loop_count = st.research_loop_count ∧
    st.seen_urls ⊆ st₁.seen_urls ∧
    st.seen_urls.length ≤ st₁.seen_urls.length := by
  unfold webResearchSingle at h
  split at h
  · split at h
    · cases h
    · injection h with h'
      injection h' with h1 h2
      subst h1
      subst h2
      exact ⟨rfl, rfl, rfl, rfl, subset_foldl_setAdd _ _,
        length_le_foldl_setAdd _ _⟩
  · cases h

lemma web_research_spec {cfg : Configuration} {inp : StepIn}
    {st st₁ : SummaryState} {u : StateUpdate}
    (h : web_research cfg inp st = Except.ok (st₁, u)) :
    u.research_loop_count = some (st.research_loop_count + 1) ∧
    u.validation_retry_needed = none ∧
    st₁.validation_retry_needed = st.validation_retry_needed ∧
    st₁.research_loop_count = st.research_loop_count ∧
    st.seen_urls ⊆ st₁.seen_urls ∧
    st.seen_urls.length ≤ st₁.seen_urls.length := by
  unfold web_research at h
  split at h
  · next a rest heq =>
    injection h with h'
    have hm := webResearchMulti_spec cfg inp st (a :: rest)
    rw [h'] at hm
    exact hm
  · exact webResearchSingle_spec h

lemma web_research_observed {cfg : Configuration} {inp : StepIn}
    {st st₁ : SummaryState} {u : StateUpdate}
    (h : web_research cfg inp st = Except.ok (st₁, u)) :
    ∀ x ∈ webObservedUrls cfg inp, x ∈ st₁.seen_urls := by
  unfold web_research at h
  unfold webObservedUrls
  split at h
  · next a rest heq =>
    injection h with h'
    unfold webResearchMulti at h'
    split at h'
    · next hemp =>
      injection h' with h1 h2
      intro x hx
      rw [List.isEmpty_iff.mp hemp] at hx
      simp at hx
    · injection h' with h1 h2
      subst h1
      intro x hx
      exact mem_foldl_setAdd _ _ hx
  · next hne =>
    unfold webResearchSingle at h
    split at h
    · next hsup =>
      split at h
      · cases h
      · next resp hs =>
        injection h with h'
        injection h' with h1 h2
        subst h1
        cases capi : cfg.search_apis with
        | none =>
          simp only [capi, hsup, if_true, hs]
          intro x hx
          exact mem_foldl_setAdd _ _ hx
        | some l =>
          cases l with
          | nil =>
            simp only [capi, hsup, if_true, hs]
            intro x hx
            exact mem_foldl_setAdd _ _ hx
          | cons a rest => exact absurd capi (hne a rest)
    · cases h

lemma step_spec {cfg : Configuration} {inp : StepIn} {n : Node}
    {st : SummaryState} {out : Node × SummaryState}
    (h : step cfg inp n st = Except.ok out) :
    out.2.research_loop_count =
      st.research_loop_count + (if n = Node.web_research then 1 else 0) ∧
    st.seen_urls ⊆ out.2.seen_urls ∧
    st.seen_urls.length ≤ out.2.seen_urls.length ∧
    (cfg.require_valid_sources = false → st.validation_retry_needed = false →
      out.2.validation_retry_needed = false ∧
      ¬(n = Node.validate_sources ∧ out.1 = Node.web_research)) := by
  cases n with
  | generate_query =>
    simp only [step] at h
    injection h with h'
    subst h'
    refine ⟨by simp, fun x hx => hx, le_refl _, ?_⟩
    intro _ hret
    exact ⟨by simp [hret], by simp⟩
  | web_research =>
    simp only [step] at h
    split at h
    · cases h
    · next st₁ u heq =>
      injection h with h'
      subst h'
      have hs := web_research_spec heq
      refine ⟨by simp [hs.1], ?_, ?_, ?_⟩
      · intro x hx
        simpa using hs.2.2.2.2.1 hx
      · simpa using hs.2.2.2.2.2
      · intro _ hret
        refine ⟨by simp [hs.2.1, hs.2.2.1, hret], by simp⟩
  | validate_sources =>
    simp only [step] at h
    injection h with h'
    subst h'
    refine ⟨by simp [validate_sources_rlc_none], fun x hx => hx, le_refl _, ?_⟩
    intro hreq hret
    have hne := validate_sources_no_retry_of_not_required cfg inp.judge st hreq
    have hret' : (applyUpdate st
        (validate_sources cfg inp.judge st)).validation_retry_needed = false := by
      rw [applyUpdate_validation_retry_needed]
      cases hv : (validate_sources cfg inp.judge st).validation_retry_needed with
      | none => simpa using hret
      | some b =>
        cases b with
        | true => exact absurd hv hne
        | false => rfl
    refine ⟨hret', ?_⟩
    rintro ⟨-, hroute⟩
    rw [route_validation_of_not_retry cfg _ hret'] at hroute
    cases hroute
  | summarize_sources =>
    simp only [step] at h
    split at h
    · cases h
    · injection h with h'
      subst h'
      refine ⟨by simp, fun x hx => hx, le_refl _, ?_⟩
      intro _ hret
      exact ⟨by simp [hret], by simp⟩
  | reflect_on_summary =>
    simp only [step] at h
    injection h with h'
    subst h'
    refine ⟨by simp, fun x hx => hx, le_refl _, ?_⟩
    intro _ hret
    exact ⟨by simp [hret], by simp⟩
  | finalize_summary =>
    simp only [step] at h
    injection h with h'
    subst h'
    refine ⟨by simp, fun x hx => by simpa using hx, by simp, ?_⟩
    intro _ hret
    exact ⟨by simp [hret], by simp⟩
  | terminal =>
    simp only [step] at h
    injection h with h'
    subst h'
    exact ⟨by simp, fun x hx => hx, le_refl _,
      fun _ hret => ⟨hret, by simp⟩⟩

lemma run_loop_count (cfg : Configuration) :
    ∀ (inputs : List StepIn) (n : Node) (st : SummaryState) (s : RunStats)
      (out : Node × SummaryState × RunStats),
      run cfg inputs n st s = Except.ok out →
      out.2.1.research_loop_count + (s.webResearchSteps : Int) =
        st.research_loop_count + (out.2.2.webResearchSteps : Int) := by
  intro inputs
  induction inputs with
  | nil =>
    intro n st s out h
    simp only [run] at h
    injection h with h'
    subst h'
    simp
  | cons inp rest ih =>
    intro n st s out h
    simp only [run] at h
    split at h
    · cases h
    · next n' st' heq =>
      have hs := (step_spec heq).1
      have hrec := ih n' st' _ out h
      dsimp only at hs hrec
      by_cases hn : n = Node.web_research
      · rw [if_pos hn] at hs hrec
        push_cast at hrec
        omega
      · rw [if_neg hn] at hs hrec
        push_cast at hrec
        omega

lemma run_retry_edges (cfg : Configuration)
    (hreq : cfg.require_valid_sources = false) :
    ∀ (inputs : List StepIn) (n : Node) (st : SummaryState) (s : RunStats)
      (out : Node × SummaryState × RunStats),
      st.validation_retry_needed = false →
      run cfg inputs n st s = Except.ok out →
      out.2.1.validation_retry_needed = false ∧
      out.2.2.validationRetryEdges = s.validationRetryEdges := by
  intro inputs
  induction inputs with
  | nil =>
    intro n st s out hret h
    simp only [run] at h
    injection h with h'
    subst h'
    exact ⟨hret, rfl⟩
  | cons inp rest ih =>
    intro n st s out hret h
    simp only [run] at h
    split at h
    · cases h
    · next n' st' heq =>
      have hs := (step_spec heq).2.2.2 hreq hret
      have hrec := ih n' st' _ out hs.1 h
      refine ⟨hrec.1, ?_⟩
      rw [hrec.2]
      simp [hs.2]

/-! ## The claims -/

/-- C1: after a reflection step the orchestrator routes to `web_research` if
and only if `research_loop_count <= max_web_research_loops`, and otherwise to
`finalize_summary`; every completed `web_research` invocation increments the
loop counter by exactly one (whether one provider or many were queried), so in
any run started at loop count 0 the final loop counter equals the number of
completed `web_research` invocations. -/
theorem C1_route_and_loop_count :
    (∀ (cfg : Configuration) (st : SummaryState),
      route_research cfg st = Node.web_research ↔
        st.research_loop_count ≤ cfg.max_web_research_loops) ∧
    (∀ (cfg : Configuration) (st : SummaryState),
      route_research cfg st = Node.finalize_summary ↔
        ¬ st.research_loop_count ≤ cfg.max_web_research_loops) ∧
    (∀ (cfg : Configuration) (inp : StepIn) (st st₁ : SummaryState)
      (u : StateUpdate),
      web_research cfg inp st = Except.ok (st₁, u) →
      (applyUpdate st₁ u).research_loop_count = st.research_loop_count + 1) ∧
    (∀ (cfg : Configuration) (inputs : List StepIn) (st₀ : SummaryState)
      (out : Node × SummaryState × RunStats),
      st₀.research_loop_count = 0 →
      run cfg inputs Node.generate_query st₀ {} = Except.ok out →
      out.2.1.research_loop_count = (out.2.2.webResearchSteps : Int)) := by
  refine ⟨?_, ?_, ?_, ?_⟩
  · intro cfg st
    unfold route_research
    split <;> simp [*]
  · intro cfg st
    unfold route_research
    split <;> simp [*]
  · intro cfg inp st st₁ u h
    have hs := web_research_spec h
    simp [hs.1]
  · intro cfg inputs st₀ out h0 h
    have := run_loop_count cfg inputs Node.generate_query st₀ {} out h
    simp only at this
    omega

/-- C1 witness: the happy-path run with loop budget 0 completes with one
web-research step and a matching loop counter. -/
theorem C1_route_and_loop_count_witness :
    c1_st.research_loop_count = 0 ∧
    runLoopCount c1_res = runWrsInt c1_res ∧
    (runLoopCount c1_res).isSome = true := by
  refine ⟨rfl, ?_, rfl⟩
  cases hres : c1_res with
  | ok out =>
    have h := C1_route_and_loop_count.2.2.2 c1_cfg c1_trace c1_st out rfl hres
    simp [runLoopCount, runWrsInt, h]
  | error e => simp [runLoopCount, runWrsInt]

/-- C2: the claim reads that with a judge scoring every source 0.1 against
threshold 0.5 and `max_validation_retries = 1`, exactly one validation retry
transition occurs.  The code disagrees: `validate_sources` signals the retry
(setting `validation_retry_needed` and incrementing `validation_retries` to 1),
but `route_validation` re-checks the already-incremented counter against the
budget (1 < 1 fails) and routes to `summarize_sources`, so zero retry
transitions are taken.  The first two conjuncts exhibit the signalled-but-not-
taken retry at the first validation; the third evaluates the whole Scenario C
run: it terminates with two web-research rounds and zero retry edges. -/
theorem C2_validation_retry_budget_code_bug :
    (validate_sources c2_cfg (failJudge "u1") c2_mid).validation_retry_needed =
      some true ∧
    route_validation c2_cfg
      (applyUpdate c2_mid (validate_sources c2_cfg (failJudge "u1") c2_mid)) =
      Node.summarize_sources ∧
    runOutcome c2_res = some (Node.terminal, 2, 0) := by
  exact ⟨rfl, rfl, rfl⟩

/-- C3 counterexample: a round whose earlier validation retry left
`validation_retry_needed` set (with `validation_retries = 1` under budget 2)
is validated successfully — `validate_sources` signals proceed, its update does
not carry any retry signal — and yet `route_validation` sends the run back to
`web_research`, contradicting the claim that a proceed signal always leads to
`summarize_sources` regardless of leftover bookkeeping. -/
theorem C3_stale_retry_flag_counterexample :
    (validate_sources c3_cfg c3_judge c3_st).validation_retry_needed = none ∧
    route_validation c3_cfg
      (applyUpdate c3_st (validate_sources c3_cfg c3_judge c3_st)) =
      Node.web_research := by
  exact ⟨rfl, rfl⟩

/-- C3 amended: whenever `validate_sources` does not signal a retry and the
state's `validation_retry_needed` flag was false before the update (the proceed
paths never reset a stale flag), the next state is `summarize_sources`. -/
theorem C3_proceed_routes_to_summarize :
    ∀ (cfg : Configuration) (judge : JudgeResult) (st : SummaryState),
      st.validation_retry_needed = false →
      (validate_sources cfg judge st).validation_retry_needed ≠ some true →
      route_validation cfg (applyUpdate st (validate_sources cfg judge st)) =
        Node.summarize_sources := by
  intro cfg judge st h hne
  have hret : (applyUpdate st
      (validate_sources cfg judge st)).validation_retry_needed = false := by
    rw [applyUpdate_validation_retry_needed]
    cases hv : (validate_sources cfg judge st).validation_retry_needed with
    | none => simpa using h
    | some b =>
      cases b with
      | true => exact absurd hv hne
      | false => rfl
  exact route_validation_of_not_retry cfg _ hret

/-- C3 amended witness: a passed validation with no stale retry flag routes to
`summarize_sources`. -/
theorem C3_proceed_routes_to_summarize_witness :
    route_validation c3_cfg
      (applyUpdate c3w_st (validate_sources c3_cfg c3_judge c3w_st)) =
      Node.summarize_sources :=
  C3_proceed_routes_to_summarize c3_cfg c3_judge c3w_st rfl (by decide)

/-- C4: with `require_valid_sources = false`, `validate_sources` never signals
a retry, and over any run from a state with the retry flag clear the
`validate_sources` → `web_research` edge is never taken. -/
theorem C4_no_retry_when_not_required :
    (∀ (cfg : Configuration) (judge : JudgeResult) (st : SummaryState),
      cfg.require_valid_sources = false →
      (validate_sources cfg judge st).validation_retry_needed ≠ some true) ∧
    (∀ (cfg : Configuration) (inputs : List StepIn) (n₀ : Node)
      (st₀ : SummaryState) (out : Node × SummaryState × RunStats),
      cfg.require_valid_sources = false →
      st₀.validation_retry_needed = false →
      run cfg inputs n₀ st₀ {} = Except.ok out →
      out.2.2.validationRetryEdges = 0) := by
  constructor
  · intro cfg judge st h
    exact validate_sources_no_retry_of_not_required cfg judge st h
  · intro cfg inputs n₀ st₀ out hreq hret h
    exact (run_retry_edges cfg hreq inputs n₀ st₀ {} out hret h).2

/-- C4 witness: the full run with validation disabled and an always-rejecting
judge completes with zero retry edges. -/
theorem C4_no_retry_when_not_required_witness :
    c4_cfg.require_valid_sources = false ∧
    runRetryEdges c4_res = some 0 ∧
    isOkB c4_res = true := by
  refine ⟨rfl, ?_, rfl⟩
  cases hres : c4_res with
  | ok out =>
    have h := C4_no_retry_when_not_required.2 c4_cfg c4_trace
      Node.generate_query c4_st out rfl rfl hres
    simp [runRetryEdges, h]
  | error e =>
    have hok : isOkB c4_res = true := rfl
    rw [hres] at hok
    simp [isOkB] at hok

/-- C5: the claim reads that in tool-calling mode a first tool invocation
whose argument map lacks the requested query field makes the extractor return
the fallback string.  The code disagrees: `tool_data.get(field)` returns
Python `None` for a missing key, and the `except KeyError` handler (evidence
of the fallback intent) is unreachable for this path, so the extractor returns
`None` instead of the fallback.  The other conjuncts of the claim hold: with
no tool call at all the fallback is returned. -/
theorem C5_missing_tool_field_code_bug :
    generate_search_query_with_structured_output c5_cfg c5_resp "FALLBACK"
      "query" "query" = none ∧
    (none : Option String) ≠ some "FALLBACK" ∧
    generate_search_query_with_structured_output c5_cfg c5_noToolResp
      "FALLBACK" "query" "query" = some "FALLBACK" := by
  exact ⟨rfl, by decide, rfl⟩

/-- C6: configuration resolution rejects the placeholder sentinel with an
error whose message contains "placeholder", and accepts any other non-empty
resolved model identifier without raising that error. -/
theorem C6_placeholder_rejection :
    ∀ (entry : ConfEntry) (env : Option String),
      (filtered_local_llm entry env = some "your_model_name" →
        from_runnable_config_local_llm entry env =
          Except.error placeholder_error_message ∧
        strContainsSub placeholder_error_message "placeholder" = true) ∧
      (∀ s : String, filtered_local_llm entry env = some s →
        s ≠ "your_model_name" →
        from_runnable_config_local_llm entry env = Except.ok s) := by
  intro entry env
  constructor
  · intro h
    refine ⟨?_, by decide⟩
    unfold from_runnable_config_local_llm
    rw [h]
    simp
  · intro s h hne
    unfold from_runnable_config_local_llm
    rw [h]
    simp [hne]

/-- C6 witness: resolving the sentinel fails with the placeholder error, and
resolving a real model name succeeds. -/
theorem C6_placeholder_rejection_witness :
    from_runnable_config_local_llm (ConfEntry.pystr "your_model_name") none =
      Except.error placeholder_error_message ∧
    strContainsSub placeholder_error_message "placeholder" = true ∧
    from_runnable_config_local_llm (ConfEntry.pystr "llama3") none =
      Except.ok "llama3" := by
  refine ⟨((C6_placeholder_rejection (ConfEntry.pystr "your_model_name")
      none).1 rfl).1,
    ((C6_placeholder_rejection (ConfEntry.pystr "your_model_name")
      none).1 rfl).2,
    (C6_placeholder_rejection (ConfEntry.pystr "llama3") none).2 "llama3"
      rfl (by decide)⟩

/-- C7: the claim reads that an exhausted-retry validation with zero passing
sources continues with `web_research_results` unchanged.  The code disagrees:
the exhausted branch returns the whole existing list through the
`operator.add` reducer (despite its comment saying to keep existing results),
so applying the update duplicates every entry.  The conjuncts show the branch
signals proceed, returns the existing entries, and that the applied state
holds each entry twice. -/
theorem C7_exhausted_retry_duplicates_results_code_bug :
    (validate_sources c7_cfg c7_judge c7_st).validation_retry_needed =
      some false ∧
    (validate_sources c7_cfg c7_judge c7_st).web_research_results =
      c7_st.web_research_results ∧
    (applyUpdate c7_st
      (validate_sources c7_cfg c7_judge c7_st)).web_research_results =
      ["round one results", "round one results"] := by
  exact ⟨rfl, rfl, rfl⟩

/-- C8 counterexample: `finalize_summary` mutates its input state — after the
call, the state object's `running_summary` no longer holds its prior value,
contradicting the claim that the inputs are left unmodified. -/
theorem C8_finalize_mutates_state_counterexample :
    (finalize_summary c8_st).1.running_summary ≠ c8_st.running_summary := by
  decide

/-- C8 amended: `finalize_summary` makes no external calls and its returned
update is a function of `sources_gathered` and `running_summary` only, but it
mutates the input state's `running_summary` field in place (to the same final
report it returns); all other fields are left unmodified. -/
theorem C8_finalize_pure_amended :
    ∀ s₁ s₂ : SummaryState,
      s₁.sources_gathered = s₂.sources_gathered →
      s₁.running_summary = s₂.running_summary →
      (finalize_summary s₁).2 = (finalize_summary s₂).2 ∧
      (finalize_summary s₁).1 =
        { s₁ with running_summary := (finalize_summary s₁).1.running_summary }
    := by
  intro s₁ s₂ h1 h2
  constructor
  · simp only [finalize_summary]
    rw [h1, h2]
  · rfl

/-- C8 amended witness: two states agreeing on `sources_gathered` and
`running_summary` but differing elsewhere produce the same update, and the
mutation touches only `running_summary`. -/
theorem C8_finalize_pure_amended_witness :
    (finalize_summary c8_st).2 = (finalize_summary c8_st').2 ∧
    (finalize_summary c8_st).1 =
      { c8_st with running_summary := (finalize_summary c8_st).1.running_summary }
    :=
  C8_finalize_pure_amended c8_st c8_st' rfl rfl

/-- C9: `seen_urls` grows monotonically — no graph step removes an element
from it or shrinks it — and after a completed `web_research` step every URL
observed in that round is a member of `seen_urls`. -/
theorem C9_seen_urls_monotone :
    (∀ (cfg : Configuration) (inp : StepIn) (n : Node) (st : SummaryState)
      (out : Node × SummaryState),
      step cfg inp n st = Except.ok out →
      st.seen_urls ⊆ out.2.seen_urls ∧
      st.seen_urls.length ≤ out.2.seen_urls.length) ∧
    (∀ (cfg : Configuration) (inp : StepIn) (st : SummaryState)
      (out : Node × SummaryState),
      step cfg inp Node.web_research st = Except.ok out →
      ∀ x ∈ webObservedUrls cfg inp, x ∈ out.2.seen_urls) := by
  constructor
  · intro cfg inp n st out h
    exact ⟨(step_spec h).2.1, (step_spec h).2.2.1⟩
  · intro cfg inp st out h
    simp only [step] at h
    split at h
    · cases h
    · next st₁ u heq =>
      injection h with h'
      subst h'
      intro x hx
      simpa using web_research_observed heq x hx

/-- C9 witness: a concrete single-provider research step extends the seen set
and records the observed URL. -/
theorem C9_seen_urls_monotone_witness :
    isOkB (step c9_cfg c9_inp Node.web_research c9_st) = true ∧
    (match step c9_cfg c9_inp Node.web_research c9_st with
     | Except.ok out =>
       c9_st.seen_urls ⊆ out.2.seen_urls ∧ "u1" ∈ out.2.seen_urls
     | Except.error _ => True) := by
  refine ⟨rfl, ?_⟩
  cases hres : step c9_cfg c9_inp Node.web_research c9_st with
  | ok out =>
    exact ⟨(C9_seen_urls_monotone.1 c9_cfg c9_inp Node.web_research c9_st
        out hres).1,
      C9_seen_urls_monotone.2 c9_cfg c9_inp c9_st out hres "u1" (by decide)⟩
  | error e => trivial

/-- C10: on a state with no web research results, `validate_sources` returns
exactly the update clearing the two validation flags — the same update for
every judge, since the early return precedes the judgment call — and applying
it changes no other state field. -/
theorem C10_empty_results_early_return :
    ∀ (cfg : Configuration) (judge : JudgeResult) (st : SummaryState),
      st.web_research_results = [] →
      validate_sources cfg judge st =
        { validated_sources := some false,
          validation_retry_needed := some false } ∧
      applyUpdate st (validate_sources cfg judge st) =
        { st with validated_sources := false,
                  validation_retry_needed := false } := by
  intro cfg judge st h
  have he : st.web_research_results.isEmpty = true := by simp [h]
  have h1 : validate_sources cfg judge st =
      { validated_sources := some false,
        validation_retry_needed := some false } := by
    unfold validate_sources
    rw [if_pos he]
  refine ⟨h1, ?_⟩
  rw [h1]
  simp [applyUpdate]

/-- C10 witness: the default (empty) state with an erroring judge gets exactly
the two-flag update. -/
theorem C10_empty_results_early_return_witness :
    validate_sources {} JudgeResult.err {} =
      { validated_sources := some false,
        validation_retry_needed := some false } ∧
    applyUpdate ({} : SummaryState) (validate_sources {} JudgeResult.err {}) =
      { ({} : SummaryState) with validated_sources := false,
                                 validation_retry_needed := false } :=
  C10_empty_results_early_return {} JudgeResult.err {} rfl

end LDR


